/-
Verification of the client-side Session & Authorization Manager of the
firebase_demo repository, as a shallow embedding in Lean 4.

Embedded source files:
  * frontend/src/services/api.js        (both the short and the elaborated
    variant present in the file; definitions carrying the `Simple` suffix
    come from the short variant at the top of the file, the rest from the
    elaborated variant)
  * frontend/src/contexts/AuthContext.jsx (elaborated variant)

localStorage is modelled as an association list from string keys to string
values; `window.location.pathname` is passed as an explicit argument where
the source reads it; awaited external calls (Firebase auth, the audit
endpoint) are modelled by passing their outcome as an explicit
`Except`/`Bool` argument and recording the call in an effect trace.
-/
import Mathlib

namespace FirebaseDemo

/-- The browser localStorage, keyed by strings.  `getItem` returns `none`
where JS returns `null`. -/
abbrev Store := List (String × String)

/-- `localStorage.removeItem k`: drop every entry under `k`. -/
def Store.removeItem : Store → String → Store
  | [], _ => []
  | p :: rest, k => if p.1 = k then Store.removeItem rest k else p :: Store.removeItem rest k

/-- `localStorage.getItem k`: the value stored under `k`, if any. -/
def Store.getItem : Store → String → Option String
  | [], _ => none
  | p :: rest, k => if p.1 = k then some p.2 else Store.getItem rest k

/-- `localStorage.setItem k v`: `k` now maps to `v`. -/
def Store.setItem (s : Store) (k v : String) : Store :=
  (k, v) :: s.removeItem k

/-- api.js: `DEFAULT_TIMEOUT` (30 seconds, in milliseconds). -/
def DEFAULT_TIMEOUT : Nat := 30000

/-- api.js: `UPLOAD_TIMEOUT` (5 minutes, in milliseconds). -/
def UPLOAD_TIMEOUT : Nat := 300000

/-- An axios request config, restricted to the fields the interceptors
touch: the url, the `Authorization` header and the timeout. -/
structure RequestConfig where
  url : String
  authorization : Option String
  timeout : Nat
deriving Repr, DecidableEq

/-- api.js (elaborated variant), `getAuthToken`:
`const token = localStorage.getItem("idToken");
 return token && token !== "null" && token !== "undefined" ? token : null;`
(`token &&` also rejects the empty string, which is falsy in JS). -/
def getAuthToken (s : Store) : Option String :=
  match s.getItem "idToken" with
  | some token =>
      if token ≠ "" ∧ token ≠ "null" ∧ token ≠ "undefined" then some token
      else none
  | none => none

/-- api.js (elaborated variant), `clearAuthData`: removes the keys
`idToken`, `userClaims` and `userProfile` from localStorage. -/
def clearAuthData (s : Store) : Store :=
  ((s.removeItem "idToken").removeItem "userClaims").removeItem "userProfile"

/-- Whether `pat` is an initial segment of `s` (on character lists). -/
def startsWithChars : List Char → List Char → Bool
  | _, [] => true
  | [], _ :: _ => false
  | c :: cs, d :: ds => c = d && startsWithChars cs ds

/-- Whether `pat` occurs contiguously inside `s` (on character lists). -/
def containsChars : List Char → List Char → Bool
  | [], pat => startsWithChars [] pat
  | c :: cs, pat => startsWithChars (c :: cs) pat || containsChars cs pat

/-- JS `url.includes('/upload')` (substring containment). -/
def urlIncludesUpload (url : String) : Bool :=
  containsChars url.data "/upload".data

/-- api.js (elaborated variant), the request interceptor (lines 172-198):
if the config has no `Authorization` header, attach `Bearer <token>` for
the token returned by `getAuthToken` (when any); then, if the url contains
`/upload`, raise the timeout to `UPLOAD_TIMEOUT`. -/
def requestInterceptor (s : Store) (config : RequestConfig) : RequestConfig :=
  let config :=
    if config.authorization = none then
      match getAuthToken s with
      | some token => { config with authorization := some ("Bearer " ++ token) }
      | none => config
    else config
  if urlIncludesUpload config.url then { config with timeout := UPLOAD_TIMEOUT }
  else config

/-- api.js (short variant), the request interceptor (lines 12-20):
`const token = localStorage.getItem("idToken");
 if (token && token !== "null") { config.headers.Authorization = ... }`. -/
def requestInterceptorSimple (s : Store) (config : RequestConfig) : RequestConfig :=
  if config.authorization = none then
    match s.getItem "idToken" with
    | some token =>
        if token ≠ "" ∧ token ≠ "null" then
          { config with authorization := some ("Bearer " ++ token) }
        else config
    | none => config
  else config

/-- A Credential as the spec's data model describes it: the bearer string
kept in `CredentialStore` under key `idToken`, plus the issuance and
expiry timestamps (milliseconds since epoch). The interceptors read only
the bearer string. -/
structure Credential where
  token : String
  issuedAt : Int
  expiresAt : Int
deriving Repr, DecidableEq

/-- AuthContext.jsx: `TOKEN_REFRESH_INTERVAL` (50 minutes, in ms). -/
def TOKEN_REFRESH_INTERVAL : Nat := 50 * 60 * 1000

/-- AuthContext.jsx: `TOKEN_WARNING_THRESHOLD` (5 minutes, in ms). -/
def TOKEN_WARNING_THRESHOLD : Int := 5 * 60 * 1000

/-- A Firebase user, restricted to the fields the context reads. -/
structure User where
  uid : String
  email : String
deriving Repr, DecidableEq

/-- The custom-claims payload of a token result.  The `admin` claim may be
absent; JS `Boolean(customClaims?.admin)` is `admin.getD false`. -/
structure Claims where
  admin : Option Bool
deriving Repr, DecidableEq

/-- `JSON.stringify(customClaims)` for the claims payloads we model. -/
def serializeClaims (c : Claims) : String :=
  match c.admin with
  | none => "\x7b\x7d"
  | some true => "\x7b\"admin\":true\x7d"
  | some false => "\x7b\"admin\":false\x7d"

/-- What the identity provider returns for one credential: the bearer
string (`user.getIdToken`) together with the decoded result
(`user.getIdTokenResult`): claims and expiration time (ms since epoch). -/
structure TokenResult where
  token : String
  claims : Claims
  expirationTime : Int
deriving Repr, DecidableEq

/-- A Firebase auth error, carrying its `code` (e.g.
`auth/user-token-expired`, `auth/network-request-failed`). -/
structure ProviderError where
  code : String
deriving Repr, DecidableEq

/-- The React state of `AuthProvider` (elaborated AuthContext.jsx)
together with the localStorage it persists to.  `loading` is omitted: it
is set and reset around every operation and no claim mentions it. -/
structure AuthState where
  currentUser : Option User
  idToken : Option String
  isAdmin : Bool
  userProfile : Option String
  authError : Option String
  tokenExpiring : Bool
  store : Store
deriving Repr, DecidableEq

/-- Observable side effects of the session manager, in program order:
calls to the identity provider, audit posts (with their delivery
outcome), session-state resets, localStorage removals and redirects. -/
inductive Effect
  | providerCredentialCall (force : Bool)
  | providerSignOutCall
  | auditPost (action : String) (delivered : Bool)
  | resetSessionState
  | removeStore (k : String)
  | redirectTo (url : String)
deriving Repr, DecidableEq

/-- AuthContext.jsx `logAuditEvent` (lines 240-251): posts the event via
`auditAPI.logEvent` inside its own try/catch; a delivery failure is
logged and swallowed, so the function returns nothing and never throws —
only the attempt (with its outcome) is observable. -/
def logAuditEvent (action : String) (delivered : Bool) : List Effect :=
  [.auditPost action delivered]

/-- Failure modes of `refreshTokenAndClaims`: the guard throw when no
user is supplied, or a re-thrown provider error. -/
inductive RefreshError
  | noUser
  | provider (e : ProviderError)
deriving Repr, DecidableEq

/-- AuthContext.jsx `refreshTokenAndClaims` (lines 155-196).  `res` is
the outcome of the awaited provider calls (`user.getIdToken(forceRefresh)`
and `user.getIdTokenResult()`, which report on the same credential).  On
success: stores the token and serialized claims, recomputes `isAdmin`
from the fresh claims, clears `authError`, recomputes `tokenExpiring`
from the expiration time, returns the token.  On any failure (including
the `!user` guard): sets `authError` and re-throws. -/
def refreshTokenAndClaims (st : AuthState) (user : Option User)
    (res : Except ProviderError TokenResult) (now : Int) (force : Bool) :
    AuthState × Except RefreshError String × List Effect :=
  match user with
  | none =>
      ({ st with authError := some "Error al renovar credenciales de autenticación" },
       .error .noUser, [])
  | some _ =>
    match res with
    | .error e =>
        ({ st with authError := some "Error al renovar credenciales de autenticación" },
         .error (.provider e), [.providerCredentialCall force])
    | .ok tr =>
        ({ st with
            idToken := some tr.token,
            isAdmin := tr.claims.admin.getD false,
            authError := none,
            tokenExpiring := decide (tr.expirationTime - now ≤ TOKEN_WARNING_THRESHOLD),
            store := (st.store.setItem "idToken" tr.token).setItem "userClaims"
              (serializeClaims tr.claims) },
         .ok tr.token,
         [.providerCredentialCall force, .providerCredentialCall false])

/-- The continuation of `getIdToken` after its await point: on success
commit the new token to state and localStorage; on failure set
`authError` (the error is caught, not re-thrown). -/
def getIdTokenResume (st : AuthState) (res : Except ProviderError String) : AuthState :=
  match res with
  | .ok token =>
      { st with idToken := some token, store := st.store.setItem "idToken" token }
  | .error _ =>
      { st with authError := some "Error al obtener credenciales de autenticación" }

/-- AuthContext.jsx `getIdToken` (lines 204-221): returns `null` when no
user is signed in (no provider call); otherwise awaits
`currentUser.getIdToken(forceRefresh)`, commits the token, and returns
it — or catches the failure, sets `authError`, and returns `null`.  Note:
it updates only `idToken`; `isAdmin` and `userClaims` are untouched. -/
def getIdToken (st : AuthState) (force : Bool) (res : Except ProviderError String) :
    AuthState × Option String × List Effect :=
  match st.currentUser with
  | none => (st, none, [])
  | some _ =>
      (getIdTokenResume st res,
       match res with | .ok t => some t | .error _ => none,
       [.providerCredentialCall force])

/-- AuthContext.jsx `getFreshToken` (lines 229-231): `getIdToken(true)`. -/
def getFreshToken (st : AuthState) (res : Except ProviderError String) :
    AuthState × Option String × List Effect :=
  getIdToken st true res

/-- The body of the 50-minute auto-refresh interval (AuthContext.jsx
lines 549-557): `await getIdToken(true)`.  The provider would answer with
a full credential (`res`); this path extracts only the bearer string, so
the fresh claims are never consulted.  `getIdToken` swallows its own
errors, so the interval's catch never fires. -/
def autoRefreshTick (st : AuthState) (res : Except ProviderError TokenResult) :
    AuthState × List Effect :=
  let r := getIdToken st true (res.map (·.token))
  (r.1, r.2.2)

/-- Result of a `logout` call: the new state, the effect trace, and
whether the call returned normally or threw. -/
structure LogoutResult where
  state : AuthState
  result : Except ProviderError Unit
  effects : List Effect
deriving Repr

/-- AuthContext.jsx `logout` (lines 370-417).  If a user is signed in,
first awaits a LOGOUT `logAuditEvent` — which never throws — then
awaits the provider `signOut`.  On success it resets every session state
field and removes the three localStorage keys, returning normally.  On
provider failure the catch logs a LOGOUT_FAILED audit event, sets
`authError` and re-throws, leaving session state and store untouched.
`auditDelivered` is the delivery outcome of any audit post (swallowed
either way); `signOutRes` the outcome of the provider sign-out call. -/
def logout (st : AuthState) (auditDelivered : Bool)
    (signOutRes : Except ProviderError Unit) : LogoutResult :=
  let auditEff := match st.currentUser with
    | some _ => logAuditEvent "LOGOUT" auditDelivered
    | none => []
  match signOutRes with
  | .ok _ =>
      { state := { st with
          currentUser := none
          idToken := none
          isAdmin := false
          userProfile := none
          authError := none
          tokenExpiring := false
          store := ((st.store.removeItem "idToken").removeItem "userClaims").removeItem "userProfile" },
        result := .ok (),
        effects := auditEff ++ [.providerSignOutCall, .resetSessionState,
          .removeStore "idToken", .removeStore "userClaims", .removeStore "userProfile"] }
  | .error e =>
      { state := { st with authError := some "Error al cerrar sesión" },
        result := .error e,
        effects := auditEff ++ [.providerSignOutCall] ++
          logAuditEvent "LOGOUT_FAILED" auditDelivered }

/-- The `user = null` branch of the `onAuthStateChanged` listener
(AuthContext.jsx lines 515-527): reset all session state and remove the
three localStorage keys. -/
def onAuthStateChangedNull (st : AuthState) : AuthState :=
  { st with
    currentUser := none
    idToken := none
    isAdmin := false
    userProfile := none
    authError := none
    tokenExpiring := false
    store := ((st.store.removeItem "idToken").removeItem "userClaims").removeItem "userProfile" }

/-- AuthContext.jsx `contextValue.userRole` (line 624):
`isAdmin ? 'admin' : 'user'`. -/
def userRole (st : AuthState) : String :=
  if st.isAdmin then "admin" else "user"

/-- AuthContext.jsx `contextValue.isAuthenticated` (line 622):
`!!currentUser`. -/
def isAuthenticated (st : AuthState) : Bool :=
  st.currentUser.isSome

/-- An axios error as the response interceptor and `formatApiError`
inspect it: `error.response?.status`, `error.response.data?.detail`,
`error.response.data?.message`, `error.response.data?.code`, whether
`error.request` is set, and `error.message`.  `responseStatus = none`
means no response arrived. -/
structure AxiosError where
  responseStatus : Option Nat
  responseDetail : Option String
  responseMessage : Option String
  responseCode : Option String
  requestMade : Bool
  message : String
deriving Repr, DecidableEq

/-- The normalized error shape `{status, message, code}`. -/
structure FormattedError where
  status : Int
  message : String
  code : String
deriving Repr, DecidableEq

/-- api.js (elaborated variant) `formatApiError` (lines 141-162): a
response maps to its status with `detail || message` (or a generic
server-error text) and `code || HTTP_<status>`; a request with no
response maps to status 0 / NETWORK_ERROR; anything else to status -1 /
CLIENT_ERROR with `error.message || "Error inesperado"`. -/
def formatApiError (e : AxiosError) : FormattedError :=
  match e.responseStatus with
  | some status =>
      { status := (status : Int)
        message := (e.responseDetail.orElse fun _ => e.responseMessage).getD
          ("Error del servidor (" ++ toString status ++ ")")
        code := e.responseCode.getD ("HTTP_" ++ toString status) }
  | none =>
      if e.requestMade then
        { status := 0
          message := "Error de conexión. Verifica tu conexión a internet."
          code := "NETWORK_ERROR" }
      else
        { status := -1
          message := if e.message ≠ "" then e.message else "Error inesperado"
          code := "CLIENT_ERROR" }

/-- Result of the response-error interceptor: the localStorage after the
handler ran, the navigation it performed (if any), the formatted error it
rejects with, and the effect trace. -/
structure ResponseErrorResult where
  store : Store
  redirect : Option String
  rejected : FormattedError
  effects : List Effect
deriving Repr, DecidableEq

/-- api.js (elaborated variant), the response-error interceptor (lines
215-235), run in a browser (`typeof window` is defined): on a 401
response it calls `clearAuthData()` and then, unless
`window.location.pathname` is already `/login`, assigns
`window.location.href = '/login?reason=session_expired'`; in every case
it rejects with `formatApiError(error)`.  No identity-provider function
is invoked on any path. -/
def responseErrorInterceptor (s : Store) (pathname : String) (e : AxiosError) :
    ResponseErrorResult :=
  if e.responseStatus = some 401 then
    let redirect :=
      if pathname ≠ "/login" then some "/login?reason=session_expired" else none
    { store := clearAuthData s
      redirect := redirect
      rejected := formatApiError e
      effects := [.removeStore "idToken", .removeStore "userClaims",
          .removeStore "userProfile"] ++
        (match redirect with | some u => [.redirectTo u] | none => []) }
  else
    { store := s, redirect := none, rejected := formatApiError e, effects := [] }

/-- One cooperative-scheduler event of the refresh machinery:
`getIdToken` decomposed at its single await point.  `begin` runs the body
up to and including issuing the provider call
(`await currentUser.getIdToken(forceRefresh)`); `complete` resumes one
in-flight call with the provider's answer and commits its
continuation. -/
inductive RefreshEvent
  | begin (force : Bool)
  | complete (res : Except ProviderError String)
deriving Repr

/-- A configuration of the cooperative scheduler: the session state plus
the number of identity-provider credential calls currently in flight. -/
structure Conf where
  st : AuthState
  inFlight : Nat
deriving Repr

/-- Small-step semantics of interleaved `getIdToken` calls.  The only
guard `getIdToken` evaluates before its await is the `currentUser` null
check — the state holds no in-flight marker — so `begin` issues a new
provider call whenever a user is signed in, regardless of how many calls
are already in flight.  `complete` is only possible when a call is in
flight. -/
def refreshStep (c : Conf) (e : RefreshEvent) : Option Conf :=
  match e with
  | .begin _ =>
      some (if c.st.currentUser.isSome then { c with inFlight := c.inFlight + 1 } else c)
  | .complete res =>
      if c.inFlight = 0 then none
      else some { st := getIdTokenResume c.st res, inFlight := c.inFlight - 1 }

/-- Run a sequence of scheduler events from a configuration. -/
def runRefreshTrace (c : Conf) (es : List RefreshEvent) : Option Conf :=
  match es with
  | [] => some c
  | e :: rest => (refreshStep c e).bind (fun c' => runRefreshTrace c' rest)

/-! ### Helper lemmas about the store -/

theorem Store.getItem_removeItem_self (s : Store) (k : String) :
    (s.removeItem k).getItem k = none := by
  induction s with
  | nil => rfl
  | cons p rest ih =>
      by_cases h : p.1 = k <;> simp [Store.removeItem, Store.getItem, h, ih]

theorem Store.getItem_removeItem_ne (s : Store) (k k' : String) (h : k ≠ k') :
    (s.removeItem k').getItem k = s.getItem k := by
  induction s with
  | nil => rfl
  | cons p rest ih =>
      by_cases hp : p.1 = k'
      · have hk : p.1 ≠ k := by rw [hp]; exact fun hh => h hh.symm
        simp [Store.removeItem, Store.getItem, hp, hk, ih, Ne.symm h]
      · by_cases hk : p.1 = k <;> simp [Store.removeItem, Store.getItem, hp, hk, ih, h]

/-- Removing the three auth keys (in any of the clearing sites, which all
remove `idToken`, then `userClaims`, then `userProfile`) leaves none of
the three present. -/
theorem getItem_clear_three (s : Store) :
    (((s.removeItem "idToken").removeItem "userClaims").removeItem "userProfile").getItem
        "idToken" = none ∧
    (((s.removeItem "idToken").removeItem "userClaims").removeItem "userProfile").getItem
        "userClaims" = none ∧
    (((s.removeItem "idToken").removeItem "userClaims").removeItem "userProfile").getItem
        "userProfile" = none := by
  refine ⟨?_, ?_, ?_⟩
  · rw [Store.getItem_removeItem_ne _ _ _ (by decide),
      Store.getItem_removeItem_ne _ _ _ (by decide)]
    exact Store.getItem_removeItem_self s _
  · rw [Store.getItem_removeItem_ne _ _ _ (by decide)]
    exact Store.getItem_removeItem_self _ _
  · exact Store.getItem_removeItem_self _ _

theorem clearAuthData_getItem (s : Store) :
    (clearAuthData s).getItem "idToken" = none ∧
    (clearAuthData s).getItem "userClaims" = none ∧
    (clearAuthData s).getItem "userProfile" = none :=
  getItem_clear_three s

/-! ### Concrete fixtures used by witnesses and counterexamples -/

/-- A signed-in administrator session: the state reached after a login
whose credential carried the claim `admin = true`. -/
def adminState : AuthState :=
  { currentUser := some { uid := "u1", email := "a@x.com" }
    idToken := some "tok"
    isAdmin := true
    userProfile := none
    authError := none
    tokenExpiring := false
    store := [("idToken", "tok"), ("userClaims", serializeClaims { admin := some true })] }

/-- The signed-out (anonymous) session state. -/
def signedOutState : AuthState :=
  { currentUser := none
    idToken := none
    isAdmin := false
    userProfile := none
    authError := none
    tokenExpiring := false
    store := [] }

/-! ### Projection lemmas for the request interceptors -/

/-- The Authorization header produced by the elaborated request
interceptor on a request with no explicit header: `Bearer <token>` for
the token `getAuthToken` yields, `none` otherwise; the upload-timeout
step never touches it. -/
theorem requestInterceptor_authorization (s : Store) (config : RequestConfig)
    (hauth : config.authorization = none) :
    (requestInterceptor s config).authorization =
      (getAuthToken s).map (fun t => "Bearer " ++ t) := by
  unfold requestInterceptor
  rw [hauth]
  cases hget : getAuthToken s with
  | none =>
      by_cases hu : urlIncludesUpload config.url <;> simp [hget, hu, hauth]
  | some t =>
      by_cases hu : urlIncludesUpload config.url <;> simp [hget, hu]

/-- Same projection for the short variant's interceptor. -/
theorem requestInterceptorSimple_authorization (s : Store) (config : RequestConfig)
    (hauth : config.authorization = none) :
    (requestInterceptorSimple s config).authorization =
      (match Store.getItem s "idToken" with
       | some t => if t ≠ "" ∧ t ≠ "null" then some ("Bearer " ++ t) else none
       | none => none) := by
  unfold requestInterceptorSimple
  rw [hauth]
  cases hget : Store.getItem s "idToken" with
  | none => simp [hget, hauth]
  | some t =>
      by_cases hc : t ≠ "" ∧ t ≠ "null"
      · simp only [hget]
        simp [hc]
      · simp only [hget]
        simp [hc, hauth]

/-! ### C1 — request enrichment vs. credential expiry -/

/-- **C1, counterexample.** The claim says an expired Credential (expiry
≤ now) is never attached.  Take the Credential with bearer string "tok"
and expiry 100, stored under `idToken`, at current time 100 (expiry
exactly now, hence expired by the claim's own boundary rule): both
request interceptors attach `Bearer tok` anyway — the enrichment stage
never reads the expiry. -/
theorem C1_counterexample :
    (Credential.mk "tok" 0 100).expiresAt ≤ 100 ∧
    Store.getItem [("idToken", "tok")] "idToken" = some (Credential.mk "tok" 0 100).token ∧
    (requestInterceptor [("idToken", "tok")]
        { url := "/auth/me", authorization := none, timeout := DEFAULT_TIMEOUT }).authorization
      = some ("Bearer " ++ (Credential.mk "tok" 0 100).token) ∧
    (requestInterceptorSimple [("idToken", "tok")]
        { url := "/auth/me", authorization := none, timeout := DEFAULT_TIMEOUT }).authorization
      = some ("Bearer " ++ (Credential.mk "tok" 0 100).token) :=
  ⟨by decide, rfl, rfl, rfl⟩

/-- **C1 (amended).** The request-enrichment stage attaches whatever
bearer string is stored: for any Credential whose token is stored under
`idToken` and is not one of the sentinel values, and any request without
an explicit Authorization header, both interceptors attach
`Bearer <token>` — even when the Credential's expiry is ≤ the current
time.  Expiry is never consulted. -/
theorem C1_attach_ignores_expiry (c : Credential) (now : Int) (s : Store)
    (config : RequestConfig)
    (hstore : s.getItem "idToken" = some c.token)
    (h1 : c.token ≠ "") (h2 : c.token ≠ "null") (h3 : c.token ≠ "undefined")
    (hauth : config.authorization = none)
    (hexp : c.expiresAt ≤ now) :
    (requestInterceptor s config).authorization = some ("Bearer " ++ c.token) ∧
    (requestInterceptorSimple s config).authorization = some ("Bearer " ++ c.token) := by
  have hget : getAuthToken s = some c.token := by
    simp [getAuthToken, hstore, h1, h2, h3]
  constructor
  · rw [requestInterceptor_authorization s config hauth, hget]
    rfl
  · rw [requestInterceptorSimple_authorization s config hauth, hstore]
    simp [h1, h2]

/-- **C1, witness** for the amended theorem, at the concrete expired
credential of the counterexample. -/
theorem C1_attach_ignores_expiry_witness :
    (Store.getItem [("idToken", "tok")] "idToken" = some "tok" ∧
      "tok" ≠ "" ∧ "tok" ≠ "null" ∧ "tok" ≠ "undefined" ∧ (100 : Int) ≤ 100) ∧
    (requestInterceptor [("idToken", "tok")]
        { url := "/documents/list", authorization := none, timeout := DEFAULT_TIMEOUT }).authorization
      = some ("Bearer " ++ "tok") ∧
    (requestInterceptorSimple [("idToken", "tok")]
        { url := "/documents/list", authorization := none, timeout := DEFAULT_TIMEOUT }).authorization
      = some ("Bearer " ++ "tok") :=
  ⟨⟨rfl, by decide, by decide, by decide, by decide⟩,
    (C1_attach_ignores_expiry ⟨"tok", 0, 100⟩ 100 [("idToken", "tok")]
      { url := "/documents/list", authorization := none, timeout := DEFAULT_TIMEOUT }
      rfl (by decide) (by decide) (by decide) rfl (by decide)).1,
    (C1_attach_ignores_expiry ⟨"tok", 0, 100⟩ 100 [("idToken", "tok")]
      { url := "/documents/list", authorization := none, timeout := DEFAULT_TIMEOUT }
      rfl (by decide) (by decide) (by decide) rfl (by decide)).2⟩

/-! ### C2 — role recomputation after refresh -/

/-- **C2, counterexample.** The claim says every successful refresh —
including the 50-minute scheduled one — recomputes the role from the new
claims, so a refresh returning `admin = false` while the role is Admin
must transition it to User.  But the scheduled tick goes through
`getIdToken`, which stores only the bearer string: starting from the
signed-in admin state, a successful scheduled refresh whose fresh
credential carries `admin = false` leaves `isAdmin = true` and the
exposed role `"admin"`. -/
theorem C2_counterexample :
    (TokenResult.mk "tok2" { admin := some false } 3600000).claims.admin = some false ∧
    adminState.isAdmin = true ∧
    (autoRefreshTick adminState
        (.ok (TokenResult.mk "tok2" { admin := some false } 3600000))).1.isAdmin = true ∧
    userRole (autoRefreshTick adminState
        (.ok (TokenResult.mk "tok2" { admin := some false } 3600000))).1 = "admin" := by
  refine ⟨rfl, rfl, rfl, rfl⟩

/-- **C2 (amended).** Role recomputation happens exactly on the
`refreshTokenAndClaims` path (sign-up, login, auth-state change): there
`isAdmin` is set to the fresh claims' admin value, never reused from the
previous state.  The 50-minute scheduler tick and `getFreshToken`,
however, run `getIdToken`, which updates only the bearer string and
leaves the previous `isAdmin` (hence the exposed role) unchanged,
whatever claims the fresh credential carries. -/
theorem C2_role_recomputed_only_by_refreshTokenAndClaims
    (st : AuthState) (u : User) (tr : TokenResult) (now : Int) (force : Bool)
    (res : Except ProviderError TokenResult) (res' : Except ProviderError String) :
    (refreshTokenAndClaims st (some u) (.ok tr) now force).1.isAdmin
        = tr.claims.admin.getD false ∧
    (autoRefreshTick st res).1.isAdmin = st.isAdmin ∧
    (getIdToken st force res').1.isAdmin = st.isAdmin ∧
    (getFreshToken st res').1.isAdmin = st.isAdmin := by
  refine ⟨rfl, ?_, ?_, ?_⟩
  · unfold autoRefreshTick getIdToken
    cases st.currentUser <;> cases res <;> simp [getIdTokenResume, Except.map]
  · unfold getIdToken
    cases st.currentUser <;> cases res' <;> simp [getIdTokenResume]
  · unfold getFreshToken getIdToken
    cases st.currentUser <;> cases res' <;> simp [getIdTokenResume]

/-! ### C3 — 401 handling -/

/-- **C3, counterexample.** The claim says every 401 response triggers
the local cleanup *and* a redirect signal to the authentication entry
point.  A 401 received while `window.location.pathname` is already
`/login` performs the cleanup but emits no redirect signal — the
handler's redirect is guarded by `pathname !== '/login'`. -/
theorem C3_counterexample :
    (AxiosError.mk (some 401) none none none true "Request failed").responseStatus
      = some 401 ∧
    (responseErrorInterceptor [("idToken", "tok")] "/login"
        (AxiosError.mk (some 401) none none none true "Request failed")).redirect = none ∧
    (responseErrorInterceptor [("idToken", "tok")] "/login"
        (AxiosError.mk (some 401) none none none true "Request failed")).effects
      = [.removeStore "idToken", .removeStore "userClaims", .removeStore "userProfile"] :=
  ⟨rfl, rfl, rfl⟩

/-- **C3 (amended).** On every 401 response the handler performs a purely
local invalidation: it clears all three CredentialStore entries (so the
enrichment stage afterwards sees no credential — the session is
effectively anonymous), makes no call to the identity provider, and
emits the redirect signal to `/login?reason=session_expired` — unless
the current location is already `/login`, in which case no redirect is
emitted. -/
theorem C3_local_invalidation_on_401 (s : Store) (pathname : String) (e : AxiosError)
    (h : e.responseStatus = some 401) :
    (responseErrorInterceptor s pathname e).store.getItem "idToken" = none ∧
    (responseErrorInterceptor s pathname e).store.getItem "userClaims" = none ∧
    (responseErrorInterceptor s pathname e).store.getItem "userProfile" = none ∧
    getAuthToken (responseErrorInterceptor s pathname e).store = none ∧
    (∀ f, Effect.providerCredentialCall f ∉ (responseErrorInterceptor s pathname e).effects) ∧
    Effect.providerSignOutCall ∉ (responseErrorInterceptor s pathname e).effects ∧
    (responseErrorInterceptor s pathname e).redirect =
      (if pathname = "/login" then none else some "/login?reason=session_expired") := by
  unfold responseErrorInterceptor
  rw [h]
  by_cases hp : pathname = "/login" <;>
    simp [hp, clearAuthData, getItem_clear_three, getAuthToken,
      (getItem_clear_three s).1]

/-- **C3, witness**: a 401 on an unrelated call while at `/dashboard`,
with an admin credential stored: everything cleared locally, no provider
call, redirect emitted. -/
theorem C3_local_invalidation_on_401_witness :
    (AxiosError.mk (some 401) none none none true "Request failed").responseStatus
      = some 401 ∧
    (responseErrorInterceptor adminState.store "/dashboard"
        (AxiosError.mk (some 401) none none none true "Request failed")).store.getItem
        "idToken" = none ∧
    getAuthToken (responseErrorInterceptor adminState.store "/dashboard"
        (AxiosError.mk (some 401) none none none true "Request failed")).store = none ∧
    (responseErrorInterceptor adminState.store "/dashboard"
        (AxiosError.mk (some 401) none none none true "Request failed")).redirect
      = some "/login?reason=session_expired" := by
  have h := C3_local_invalidation_on_401 adminState.store "/dashboard"
    (AxiosError.mk (some 401) none none none true "Request failed") rfl
  exact ⟨rfl, h.1, h.2.2.2.1, by rw [h.2.2.2.2.2.2]; rfl⟩

/-! ### C4 — single-flight refresh -/

/-- **C4, counterexample.** The claim says at most one provider
credential call is in flight at any time.  From the signed-in admin
state, the legal cooperative trace in which a second forced refresh
begins before the first completes (the 50-minute tick overlapping a
caller-initiated `getIdToken(true)`) reaches two provider calls in
flight: `getIdToken` checks only `currentUser` before awaiting the
provider, so nothing deduplicates the second call. -/
theorem C4_counterexample :
    (runRefreshTrace { st := adminState, inFlight := 0 }
        [.begin true, .begin true]).map (fun c => c.inFlight) = some 2 := rfl

/-- **C4 (amended).** There is no single-flight mechanism: whenever a
user is signed in, beginning a `refresh(force)` issues a fresh provider
credential call unconditionally — the in-flight count increments no
matter how many calls are already in flight, so overlapping refreshes
produce overlapping provider calls and each caller awaits its own
call's result. -/
theorem C4_no_single_flight (st : AuthState) (n : Nat) (force : Bool)
    (h : st.currentUser.isSome = true) :
    refreshStep { st := st, inFlight := n } (.begin force)
      = some { st := st, inFlight := n + 1 } := by
  unfold refreshStep
  simp [h]

/-- **C4, witness**: with one forced refresh already in flight from the
admin state, beginning another still issues a second provider call. -/
theorem C4_no_single_flight_witness :
    adminState.currentUser.isSome = true ∧
    refreshStep { st := adminState, inFlight := 1 } (.begin true)
      = some { st := adminState, inFlight := 2 } :=
  ⟨rfl, C4_no_single_flight adminState 1 true rfl⟩

/-! ### C5 — refresh-failure classification -/

/-- **C5, counterexample.** The claim says a refresh failure classified
as "credential permanently invalid" forces a signOut, destroying the
session.  A scheduled refresh failing with the permanent
`auth/user-token-expired` code leaves the admin session fully intact —
user, token, role and store unchanged — and no provider sign-out call is
made: the catch blocks only record an error message, never inspecting
the failure code. -/
theorem C5_counterexample :
    (autoRefreshTick adminState
        (.error (ProviderError.mk "auth/user-token-expired"))).1.currentUser
      = adminState.currentUser ∧
    (autoRefreshTick adminState
        (.error (ProviderError.mk "auth/user-token-expired"))).1.idToken
      = adminState.idToken ∧
    (autoRefreshTick adminState
        (.error (ProviderError.mk "auth/user-token-expired"))).1.isAdmin = true ∧
    (autoRefreshTick adminState
        (.error (ProviderError.mk "auth/user-token-expired"))).1.store = adminState.store ∧
    Effect.providerSignOutCall ∉
      (autoRefreshTick adminState
        (.error (ProviderError.mk "auth/user-token-expired"))).2 :=
  ⟨rfl, rfl, rfl, rfl, by decide⟩

/-- **C5 (amended).** Every refresh failure — whatever its error code,
transient or permanent — leaves the session in its prior authenticated
state and never triggers a sign-out: the scheduled path records an error
message and keeps user, token, role and store; the
`refreshTokenAndClaims` path additionally re-throws the classified error
to its caller.  The transient half of the claim holds; no failure class
forces a signOut. -/
theorem C5_refresh_failure_preserves_session (st : AuthState) (u : User)
    (e : ProviderError) (now : Int) (force : Bool)
    (h : st.currentUser = some u) :
    ((autoRefreshTick st (.error e)).1.currentUser = st.currentUser ∧
     (autoRefreshTick st (.error e)).1.idToken = st.idToken ∧
     (autoRefreshTick st (.error e)).1.isAdmin = st.isAdmin ∧
     (autoRefreshTick st (.error e)).1.store = st.store ∧
     (autoRefreshTick st (.error e)).1.authError
       = some "Error al obtener credenciales de autenticación" ∧
     Effect.providerSignOutCall ∉ (autoRefreshTick st (.error e)).2) ∧
    ((refreshTokenAndClaims st (some u) (.error e) now force).2.1
       = Except.error (.provider e) ∧
     (refreshTokenAndClaims st (some u) (.error e) now force).1.currentUser
       = st.currentUser ∧
     (refreshTokenAndClaims st (some u) (.error e) now force).1.idToken = st.idToken ∧
     (refreshTokenAndClaims st (some u) (.error e) now force).1.isAdmin = st.isAdmin ∧
     (refreshTokenAndClaims st (some u) (.error e) now force).1.store = st.store ∧
     Effect.providerSignOutCall ∉
       (refreshTokenAndClaims st (some u) (.error e) now force).2.2) := by
  constructor
  · unfold autoRefreshTick getIdToken
    rw [h]
    simp [Except.map, getIdTokenResume, h]
  · unfold refreshTokenAndClaims
    simp

/-- **C5, witness**: a transient network failure of the scheduled
refresh on the admin session — retained, surfaced, no sign-out. -/
theorem C5_refresh_failure_preserves_session_witness :
    adminState.currentUser = some { uid := "u1", email := "a@x.com" } ∧
    (autoRefreshTick adminState
        (.error (ProviderError.mk "auth/network-request-failed"))).1.currentUser
      = adminState.currentUser ∧
    (refreshTokenAndClaims adminState (some { uid := "u1", email := "a@x.com" })
        (.error (ProviderError.mk "auth/network-request-failed")) 0 true).2.1
      = Except.error (.provider (ProviderError.mk "auth/network-request-failed")) :=
  ⟨rfl,
    (C5_refresh_failure_preserves_session adminState { uid := "u1", email := "a@x.com" }
      (ProviderError.mk "auth/network-request-failed") 0 true rfl).1.1,
    (C5_refresh_failure_preserves_session adminState { uid := "u1", email := "a@x.com" }
      (ProviderError.mk "auth/network-request-failed") 0 true rfl).2.1⟩

/-! ### C6 and C7 — signOut idempotence and audit semantics -/

/-- Number of LOGOUT audit attempts in an effect trace. -/
def countLogoutEvents (l : List Effect) : Nat :=
  (l.filter fun e => match e with
    | .auditPost a _ => a = "LOGOUT"
    | _ => false).length

/-- **C6, counterexample.** The claim says signOut never throws to its
caller.  When the provider sign-out call fails (here: a network
failure), `logout`'s catch block re-throws the error after logging
LOGOUT_FAILED — the caller does see the exception. -/
theorem C6_counterexample :
    (logout adminState true
        (.error (ProviderError.mk "auth/network-request-failed"))).result
      = Except.error (ProviderError.mk "auth/network-request-failed") := rfl

/-- **C6 (amended).** With the provider sign-out call succeeding,
`logout` is idempotent as claimed: two calls in a row produce exactly
one LOGOUT audit event (zero if the session was already signed out at
the first call), a call with no active session is a no-op that returns
normally, and no call throws.  However, when the provider sign-out call
itself fails, `logout` re-throws that error to its caller. -/
theorem C6_logout_idempotent_events (st : AuthState) (b b' : Bool) :
    (∀ u, st.currentUser = some u →
      countLogoutEvents ((logout st b (.ok ())).effects
        ++ (logout (logout st b (.ok ())).state b' (.ok ())).effects) = 1) ∧
    (st.currentUser = none →
      countLogoutEvents ((logout st b (.ok ())).effects
        ++ (logout (logout st b (.ok ())).state b' (.ok ())).effects) = 0) ∧
    (logout st b (.ok ())).result = Except.ok () ∧
    (logout (logout st b (.ok ())).state b' (.ok ())).result = Except.ok () ∧
    (∀ e, (logout st b (.error e)).result = Except.error e) := by
  refine ⟨?_, ?_, ?_, ?_, ?_⟩
  · intro u h
    simp [logout, logAuditEvent, countLogoutEvents, h]
  · intro h
    simp [logout, logAuditEvent, countLogoutEvents, h]
  · simp [logout]
  · simp [logout]
  · intro e
    cases hu : st.currentUser <;> simp [logout, hu]

/-- **C6, witness**: one LOGOUT event for a signed-in double logout,
zero for an already signed-out one. -/
theorem C6_logout_idempotent_events_witness :
    adminState.currentUser = some { uid := "u1", email := "a@x.com" } ∧
    countLogoutEvents ((logout adminState true (.ok ())).effects
      ++ (logout (logout adminState true (.ok ())).state true (.ok ())).effects) = 1 ∧
    signedOutState.currentUser = none ∧
    countLogoutEvents ((logout signedOutState true (.ok ())).effects
      ++ (logout (logout signedOutState true (.ok ())).state true (.ok ())).effects) = 0 :=
  ⟨rfl,
    (C6_logout_idempotent_events adminState true true).1 { uid := "u1", email := "a@x.com" } rfl,
    rfl,
    (C6_logout_idempotent_events signedOutState true true).2.1 rfl⟩

/-- **C7 (confirmed).** During signOut with an active session, the
LOGOUT audit event is the very first step — attempted before the
provider sign-out, before the session-state reset and before any
CredentialStore removal (fire-before-clear; the success trace is fully
ordered).  A failure of the audit emission is swallowed inside
`logAuditEvent`: the resulting state and outcome of `logout` are
identical whether the audit was delivered or not, and a failed audit
never blocks the sign-out from clearing the store and returning
normally. -/
theorem C7_audit_fire_before_clear (st : AuthState) (u : User) (b : Bool)
    (so : Except ProviderError Unit) (h : st.currentUser = some u) :
    (logout st b so).effects.head? = some (.auditPost "LOGOUT" b) ∧
    (logout st b (.ok ())).effects
      = [.auditPost "LOGOUT" b, .providerSignOutCall, .resetSessionState,
         .removeStore "idToken", .removeStore "userClaims", .removeStore "userProfile"] ∧
    (logout st false so).state = (logout st true so).state ∧
    (logout st false so).result = (logout st true so).result ∧
    (logout st false (.ok ())).result = Except.ok () ∧
    (logout st false (.ok ())).state.store.getItem "idToken" = none := by
  refine ⟨?_, ?_, ?_, ?_, ?_, ?_⟩
  · cases so <;> simp [logout, logAuditEvent, h]
  · simp [logout, logAuditEvent, h]
  · cases so <;> simp [logout, logAuditEvent, h]
  · cases so <;> simp [logout, logAuditEvent, h]
  · simp [logout]
  · simp only [logout]
    exact (getItem_clear_three st.store).1

/-- **C7, witness**: the success trace from the signed-in admin state
with a failing audit delivery. -/
theorem C7_audit_fire_before_clear_witness :
    adminState.currentUser = some { uid := "u1", email := "a@x.com" } ∧
    (logout adminState false (.ok ())).effects
      = [.auditPost "LOGOUT" false, .providerSignOutCall, .resetSessionState,
         .removeStore "idToken", .removeStore "userClaims", .removeStore "userProfile"] ∧
    (logout adminState false (.ok ())).result = Except.ok () :=
  ⟨rfl,
    (C7_audit_fire_before_clear adminState { uid := "u1", email := "a@x.com" } false
      (.ok ()) rfl).2.1,
    (C7_audit_fire_before_clear adminState { uid := "u1", email := "a@x.com" } false
      (.ok ()) rfl).2.2.2.2.1⟩

/-! ### C8 — role derivation -/

/-- **C8, counterexample.** The claim says a session with no Credential
has role Anonymous.  The signed-out state (no user, no credential)
exposes `userRole = "user"` — the role vocabulary is binary
(`'admin'`/`'user'`); anonymity is only visible through
`isAuthenticated = false`, never as a role value. -/
theorem C8_counterexample :
    signedOutState.currentUser = none ∧
    signedOutState.idToken = none ∧
    userRole signedOutState = "user" ∧
    userRole signedOutState ≠ "anonymous" ∧
    isAuthenticated signedOutState = false :=
  ⟨rfl, rfl, rfl, by decide, rfl⟩

/-- **C8 (amended).** The exposed role is derived deterministically but
binarily: `"admin"` exactly when the `isAdmin` flag is set, `"user"`
otherwise — including when no Credential is present (there is no
Anonymous role value; absence of a session is exposed via
`isAuthenticated`).  Immediately after a successful
`refreshTokenAndClaims`, the role is `"admin"` iff the fresh
Credential's claims carry `admin = true`. -/
theorem C8_role_binary_from_isAdmin (st : AuthState) (u : User) (tr : TokenResult)
    (now : Int) (force : Bool) :
    (userRole st = "admin" ∨ userRole st = "user") ∧
    (userRole st = "admin" ↔ st.isAdmin = true) ∧
    userRole (refreshTokenAndClaims st (some u) (.ok tr) now force).1
      = (if tr.claims.admin.getD false then "admin" else "user") := by
  refine ⟨?_, ?_, ?_⟩
  · unfold userRole
    by_cases h : st.isAdmin <;> simp [h]
  · unfold userRole
    by_cases h : st.isAdmin <;> simp [h]
  · unfold refreshTokenAndClaims userRole
    by_cases h : tr.claims.admin.getD false <;> simp [h]

/-! ### C9 — atomic clearing of the three store entries -/

/-- **C9 (confirmed).** Every clearing site removes the three
CredentialStore entries together: `clearAuthData` (used by the 401
handler and by `setAuthToken`/`clearAuthToken`), the success path of
`logout`, and the auth-state-loss branch of `onAuthStateChanged` each
leave none of `idToken`, `userClaims`, `userProfile` behind; the failure
path of `logout` removes none of the three (the store is untouched) —
no operation clears the entries partially. -/
theorem C9_store_cleared_atomically (s : Store) (st : AuthState) (b : Bool)
    (p : String) (e : AxiosError) (c : String) :
    ((clearAuthData s).getItem "idToken" = none ∧
     (clearAuthData s).getItem "userClaims" = none ∧
     (clearAuthData s).getItem "userProfile" = none) ∧
    ((logout st b (.ok ())).state.store.getItem "idToken" = none ∧
     (logout st b (.ok ())).state.store.getItem "userClaims" = none ∧
     (logout st b (.ok ())).state.store.getItem "userProfile" = none) ∧
    (logout st b (.error (ProviderError.mk c))).state.store = st.store ∧
    ((onAuthStateChangedNull st).store.getItem "idToken" = none ∧
     (onAuthStateChangedNull st).store.getItem "userClaims" = none ∧
     (onAuthStateChangedNull st).store.getItem "userProfile" = none) ∧
    ((responseErrorInterceptor s p { e with responseStatus := some 401 }).store.getItem
        "idToken" = none ∧
     (responseErrorInterceptor s p { e with responseStatus := some 401 }).store.getItem
        "userClaims" = none ∧
     (responseErrorInterceptor s p { e with responseStatus := some 401 }).store.getItem
        "userProfile" = none) := by
  refine ⟨clearAuthData_getItem s, ?_, ?_, ?_, ?_⟩
  · simp only [logout]
    exact getItem_clear_three st.store
  · simp [logout]
  · simp only [onAuthStateChangedNull]
    exact getItem_clear_three st.store
  · unfold responseErrorInterceptor
    simp only []
    by_cases hp : p = "/login" <;> simp [hp, clearAuthData, getItem_clear_three]

/-! ### C10 — sentinel token strings treated as absent -/

/-- Inversion for `getAuthToken`: a returned token passed the sentinel
filter. -/
theorem getAuthToken_some (s : Store) (t : String) (h : getAuthToken s = some t) :
    t ≠ "" ∧ t ≠ "null" ∧ t ≠ "undefined" := by
  unfold getAuthToken at h
  cases hg : Store.getItem s "idToken" with
  | none => rw [hg] at h; cases h
  | some v =>
      rw [hg] at h
      dsimp only at h
      by_cases hc : v ≠ "" ∧ v ≠ "null" ∧ v ≠ "undefined"
      · rw [if_pos hc] at h
        injection h with h'
        exact h' ▸ hc
      · rw [if_neg hc] at h; cases h

/-- Prepending `Bearer ` to distinct tokens yields distinct headers. -/
theorem bearer_ne_of_ne (t u : String) (h : t ≠ u) :
    "Bearer " ++ t ≠ "Bearer " ++ u := by
  intro hb
  apply h
  have hd : ("Bearer " ++ t).data = ("Bearer " ++ u).data := congrArg String.data hb
  rw [String.data_append, String.data_append] at hd
  exact String.ext (List.append_cancel_left hd)

/-- **C10 (confirmed).** A stored credential value equal to the literal
string `"null"` (or `"undefined"`, in the elaborated client) is treated
as an absent credential: no Authorization header is attached by the
respective interceptor and the request proceeds unauthenticated.
Consequently any header the elaborated interceptor does attach is
neither `Bearer null` nor `Bearer undefined`, and any header the short
variant attaches is not `Bearer null`. -/
theorem C10_sentinel_token_not_attached :
    (∀ (s : Store) (config : RequestConfig),
       Store.getItem s "idToken" = some "null" → config.authorization = none →
       (requestInterceptor s config).authorization = none ∧
       (requestInterceptorSimple s config).authorization = none) ∧
    (∀ (s : Store) (config : RequestConfig),
       Store.getItem s "idToken" = some "undefined" → config.authorization = none →
       (requestInterceptor s config).authorization = none) ∧
    (∀ (s : Store) (config : RequestConfig) (a : String),
       config.authorization = none →
       (requestInterceptor s config).authorization = some a →
       a ≠ "Bearer null" ∧ a ≠ "Bearer undefined") ∧
    (∀ (s : Store) (config : RequestConfig) (a : String),
       config.authorization = none →
       (requestInterceptorSimple s config).authorization = some a →
       a ≠ "Bearer null") := by
  refine ⟨?_, ?_, ?_, ?_⟩
  · intro s config hget hauth
    constructor
    · rw [requestInterceptor_authorization s config hauth]
      simp [getAuthToken, hget]
    · rw [requestInterceptorSimple_authorization s config hauth, hget]
      simp
  · intro s config hget hauth
    rw [requestInterceptor_authorization s config hauth]
    simp [getAuthToken, hget]
  · intro s config a hauth hsome
    rw [requestInterceptor_authorization s config hauth] at hsome
    cases hga : getAuthToken s with
    | none => rw [hga] at hsome; cases hsome
    | some t =>
        rw [hga] at hsome
        injection hsome with h'
        obtain ⟨-, h2, h3⟩ := getAuthToken_some s t hga
        constructor
        · exact h' ▸ bearer_ne_of_ne t "null" h2
        · exact h' ▸ bearer_ne_of_ne t "undefined" h3
  · intro s config a hauth hsome
    rw [requestInterceptorSimple_authorization s config hauth] at hsome
    cases hg : Store.getItem s "idToken" with
    | none => rw [hg] at hsome; cases hsome
    | some v =>
        rw [hg] at hsome
        dsimp only at hsome
        by_cases hc : v ≠ "" ∧ v ≠ "null"
        · rw [if_pos hc] at hsome
          injection hsome with h'
          exact h' ▸ bearer_ne_of_ne v "null" hc.2
        · rw [if_neg hc] at hsome; cases hsome

/-- **C10, witness**: a store holding the literal `"null"` gets no
header from either interceptor; one holding `"undefined"` gets none from
the elaborated interceptor; a genuine token is attached and its header
differs from the forbidden values. -/
theorem C10_sentinel_token_not_attached_witness :
    Store.getItem [("idToken", "null")] "idToken" = some "null" ∧
    (requestInterceptor [("idToken", "null")]
        { url := "/auth/me", authorization := none, timeout := DEFAULT_TIMEOUT }).authorization
      = none ∧
    (requestInterceptorSimple [("idToken", "null")]
        { url := "/auth/me", authorization := none, timeout := DEFAULT_TIMEOUT }).authorization
      = none ∧
    (requestInterceptor [("idToken", "undefined")]
        { url := "/auth/me", authorization := none, timeout := DEFAULT_TIMEOUT }).authorization
      = none ∧
    (requestInterceptor [("idToken", "tok")]
        { url := "/auth/me", authorization := none, timeout := DEFAULT_TIMEOUT }).authorization
      = some ("Bearer " ++ "tok") ∧
    "Bearer " ++ "tok" ≠ "Bearer null" ∧
    (requestInterceptorSimple [("idToken", "tok")]
        { url := "/auth/me", authorization := none, timeout := DEFAULT_TIMEOUT }).authorization
      = some ("Bearer " ++ "tok") ∧
    "Bearer " ++ "tok" ≠ "Bearer null" :=
    ⟨rfl,
      (C10_sentinel_token_not_attached.1 [("idToken", "null")]
        { url := "/auth/me", authorization := none, timeout := DEFAULT_TIMEOUT } rfl rfl).1,
      (C10_sentinel_token_not_attached.1 [("idToken", "null")]
        { url := "/auth/me", authorization := none, timeout := DEFAULT_TIMEOUT } rfl rfl).2,
      C10_sentinel_token_not_attached.2.1 [("idToken", "undefined")]
        { url := "/auth/me", authorization := none, timeout := DEFAULT_TIMEOUT } rfl rfl,
      rfl,
      (C10_sentinel_token_not_attached.2.2.1 [("idToken", "tok")]
        { url := "/auth/me", authorization := none, timeout := DEFAULT_TIMEOUT }
        ("Bearer " ++ "tok") rfl rfl).1,
      rfl,
      (C10_sentinel_token_not_attached.2.2.2 [("idToken", "tok")]
        { url := "/auth/me", authorization := none, timeout := DEFAULT_TIMEOUT }
        ("Bearer " ++ "tok") rfl rfl)⟩

end FirebaseDemo
